import Mathlib

/-
Verification of the picoclaw Webhook Gateway Authentication & Pairing
subsystem (pkg/health/server.go, pkg/state/state.go), as a shallow
embedding in Lean 4.

Randomness (crypto/rand) is modelled by passing the freshly generated
value (pairing code or bearer token) as an explicit argument.  Machine
words used by SHA-256 are Nat values reduced mod 2^32.
-/

/-! ## SHA-256 (model of Go crypto/sha256, used by hashToken) -/

/-- Reduce a Nat to a 32-bit word. -/
def w32 (x : Nat) : Nat := x % 4294967296

/-- Rotate a 32-bit word right by n bits. -/
def rotr (n x : Nat) : Nat := w32 ((x >>> n) ||| (x <<< (32 - n)))

/-- Logical shift right. -/
def shr (n x : Nat) : Nat := x >>> n

def bSig0 (x : Nat) : Nat := (rotr 2 x) ^^^ (rotr 13 x) ^^^ (rotr 22 x)
def bSig1 (x : Nat) : Nat := (rotr 6 x) ^^^ (rotr 11 x) ^^^ (rotr 25 x)
def sSig0 (x : Nat) : Nat := (rotr 7 x) ^^^ (rotr 18 x) ^^^ (shr 3 x)
def sSig1 (x : Nat) : Nat := (rotr 17 x) ^^^ (rotr 19 x) ^^^ (shr 10 x)

def ch256 (x y z : Nat) : Nat := (x &&& y) ^^^ ((x ^^^ 4294967295) &&& z)
def maj256 (x y z : Nat) : Nat := (x &&& y) ^^^ (x &&& z) ^^^ (y &&& z)

/-- The 64 SHA-256 round constants, in decimal. -/
def sha256K : List Nat :=
  [1116352408, 1899447441, 3049323471, 3921009573, 961987163, 1508970993,
   2453635748, 2870763221, 3624381080, 310598401, 607225278, 1426881987,
   1925078388, 2162078206, 2614888103, 3248222580, 3835390401, 4022224774,
   264347078, 604807628, 770255983, 1249150122, 1555081692, 1996064986,
   2554220882, 2821834349, 2952996808, 3210313671, 3336571891, 3584528711,
   113926993, 338241895, 666307205, 773529912, 1294757372, 1396182291,
   1695183700, 1986661051, 2177026350, 2456956037, 2730485921, 2820302411,
   3259730800, 3345764771, 3516065817, 3600352804, 4094571909, 275423344,
   430227734, 506948616, 659060556, 883997877, 958139571, 1322822218,
   1537002063, 1747873779, 1955562222, 2024104815, 2227730452, 2361852424,
   2428436474, 2756734187, 3204031479, 3329325298]

/-- The initial SHA-256 hash state, in decimal. -/
def sha256Init : List Nat :=
  [1779033703, 3144134277, 1013904242, 2773480762,
   1359893119, 2600822924, 528734635, 1541459225]

/-- Group a byte list into big-endian 32-bit words. -/
def toWords : List Nat → List Nat
  | b0 :: b1 :: b2 :: b3 :: rest =>
      (b0 * 16777216 + b1 * 65536 + b2 * 256 + b3) :: toWords rest
  | _ => []

/-- Extend 16 message words to the 64-word schedule. -/
def extendW (ws : List Nat) : List Nat :=
  (List.range 48).foldl
    (fun w i =>
      let t := i + 16
      w ++ [w32 (sSig1 (w.getD (t - 2) 0) + w.getD (t - 7) 0 +
                 sSig0 (w.getD (t - 15) 0) + w.getD (t - 16) 0)])
    ws

/-- One SHA-256 round on the eight working registers. -/
def sha256Round (rs : List Nat) (kw : Nat × Nat) : List Nat :=
  match rs with
  | [a, b, c, d, e, f, g, h] =>
      let t1 := w32 (h + bSig1 e + ch256 e f g + kw.fst + kw.snd)
      let t2 := w32 (bSig0 a + maj256 a b c)
      [w32 (t1 + t2), a, b, c, w32 (d + t1), e, f, g]
  | other => other

/-- Compress one 16-word block into the hash state. -/
def sha256Compress (h : List Nat) (block : List Nat) : List Nat :=
  let w := extendW block
  let final := (sha256K.zip w).foldl sha256Round h
  List.zipWith (fun x y => w32 (x + y)) h final

/-- Fold the compression function over the word stream, fuel = block count. -/
def sha256Blocks (h : List Nat) (ws : List Nat) : Nat → List Nat
  | 0 => h
  | n + 1 => sha256Blocks (sha256Compress h (ws.take 16)) (ws.drop 16) n

/-- Big-endian 8-byte encoding of a Nat. -/
def be64 (n : Nat) : List Nat :=
  [(n >>> 56) &&& 255, (n >>> 48) &&& 255, (n >>> 40) &&& 255, (n >>> 32) &&& 255,
   (n >>> 24) &&& 255, (n >>> 16) &&& 255, (n >>> 8) &&& 255, n &&& 255]

/-- Big-endian 4-byte encoding of a 32-bit word. -/
def be32 (n : Nat) : List Nat :=
  [(n >>> 24) &&& 255, (n >>> 16) &&& 255, (n >>> 8) &&& 255, n &&& 255]

/-- SHA-256 padding: 0x80, zeros to 56 mod 64, then the bit length. -/
def padMsg (bytes : List Nat) : List Nat :=
  let len := bytes.length
  bytes ++ [128] ++ List.replicate ((119 - len % 64) % 64) 0 ++ be64 (len * 8)

/-- SHA-256 of a byte list, returning the 32 digest bytes. -/
def sha256 (msg : List Nat) : List Nat :=
  let ws := toWords (padMsg msg)
  (sha256Blocks sha256Init ws (ws.length / 16)).flatMap be32

/-- Lower-case hex digit for a nibble. -/
def hexDigit (n : Nat) : Char :=
  if n < 10 then Char.ofNat (48 + n) else Char.ofNat (87 + n)

/-- Lower-case hex encoding of a byte list (model of Go hex.EncodeToString). -/
def bytesToHex (bytes : List Nat) : String :=
  String.mk (bytes.flatMap (fun b => [hexDigit (b / 16), hexDigit (b % 16)]))

/-- UTF-8 encoding of one character. -/
def utf8Enc (c : Char) : List Nat :=
  let n := c.toNat
  if n < 128 then [n]
  else if n < 2048 then [192 ||| (n >>> 6), 128 ||| (n &&& 63)]
  else if n < 65536 then
    [224 ||| (n >>> 12), 128 ||| ((n >>> 6) &&& 63), 128 ||| (n &&& 63)]
  else
    [240 ||| (n >>> 18), 128 ||| ((n >>> 12) &&& 63),
     128 ||| ((n >>> 6) &&& 63), 128 ||| (n &&& 63)]

/-- UTF-8 bytes of a string (model of Go []byte(s)). -/
def strBytes (s : String) : List Nat := s.data.flatMap utf8Enc

/-- hashToken from server.go: hex-encoded SHA-256 of the token string. -/
def hashToken (token : String) : String := bytesToHex (sha256 (strBytes token))

/-! ## String primitives (models of the Go strings operations, defined
over character lists so that they evaluate by kernel reduction) -/

/-- Whether the first list is a prefix of the second. -/
def isPre : List Char → List Char → Bool
  | [], _ => true
  | _ :: _, [] => false
  | c :: cs, d :: ds => c == d && isPre cs ds

/-- Go strings.HasPrefix. -/
def strStarts (s pat : String) : Bool := isPre pat.data s.data

/-- Drop the first n characters (ASCII prefixes make chars = bytes). -/
def strDrop (s : String) (n : Nat) : String := String.mk (s.data.drop n)

/-- Take the first n characters. -/
def strTake (s : String) (n : Nat) : String := String.mk (s.data.take n)

/-- Whitespace as Go unicode.IsSpace classifies the ASCII range. -/
def isSpaceChar (c : Char) : Bool :=
  c == ' ' || c == '\t' || c == '\n' || c == '\x0b' || c == '\x0c' || c == '\r'

/-- Go strings.TrimSpace. -/
def strTrim (s : String) : String :=
  String.mk (((s.data.dropWhile isSpaceChar).reverse.dropWhile isSpaceChar).reverse)

/-! ## Server state and request model (pkg/health/server.go) -/

/-- API-layer fields of the health Server relevant to auth and pairing. -/
structure Server where
  requirePairing : Bool
  pairedTokens : List String
  pairingCode : String
  pairingUsed : Bool
  jwtSecret : String
deriving DecidableEq, Repr

/-- An inbound HTTP request, reduced to the headers the auth code reads.
An absent header is the empty string, as returned by Go Header.Get. -/
structure Request where
  authHeader : String
deriving DecidableEq, Repr

/-- Go strings.TrimPrefix for the Bearer prefix (7 ASCII characters). -/
def bearerTrim (auth : String) : String :=
  if strStarts auth "Bearer " then strDrop auth 7 else auth

/-- extractRawToken from server.go. -/
def extractRawToken (r : Request) : String :=
  if strStarts r.authHeader "Bearer " then bearerTrim r.authHeader else ""

/-- extractTokenHash from server.go. -/
def extractTokenHash (r : Request) : String :=
  hashToken (bearerTrim r.authHeader)

/-- Go map assignment pairedTokens[h] = true, as a duplicate-free list. -/
def addToken (ts : List String) (h : String) : List String :=
  if ts.contains h then ts else h :: ts

/-- isAuthorized from server.go: bootstrap exception, then Bearer-prefixed
hash membership in the paired-token set. -/
def isAuthorized (s : Server) (r : Request) : Bool :=
  if !s.requirePairing && s.pairedTokens.length == 0 then true
  else if !(strStarts r.authHeader "Bearer ") then false
  else s.pairedTokens.contains (hashToken (bearerTrim r.authHeader))

/-- Outcome of the pairHandler state machine. -/
inductive PairResult where
  | missingHeader
  | alreadyUsed
  | mismatch
  | ok (token : String)
deriving DecidableEq, Repr

/-- HTTP status written by pairHandler for each outcome. -/
def statusOf : PairResult → Nat
  | .missingHeader => 400
  | .alreadyUsed => 410
  | .mismatch => 403
  | .ok _ => 200

/-- pairHandler from server.go.  The submitted code is the X-Pairing-Code
header value ("" when absent); freshToken stands for the random token from
generateBearerToken. -/
def pairExchange (s : Server) (code : String) (freshToken : String) :
    PairResult × Server :=
  if code = "" then (.missingHeader, s)
  else if s.pairingUsed then (.alreadyUsed, s)
  else if code ≠ s.pairingCode then (.mismatch, s)
  else (.ok freshToken,
        { s with pairedTokens := addToken s.pairedTokens (hashToken freshToken),
                 pairingUsed := true })

/-- GenerateNewPairingCode from server.go; fresh stands for the random
6-digit code from generatePairingCode. -/
def GenerateNewPairingCode (s : Server) (fresh : String) : Server :=
  { s with pairingCode := fresh, pairingUsed := false }

/-- ResetPairingCode from server.go: regenerates only when the current
code has been used. -/
def ResetPairingCode (s : Server) (fresh : String) : Server :=
  if !s.pairingUsed then s
  else { s with pairingCode := fresh, pairingUsed := false }

/-! ## JWT validator model (validateJWT and golang-jwt/jwt/v5) -/

/-- The claims carried by a LedgerForge token. -/
structure LedgerForgeClaims where
  sub : String
  username : String
  email : String
  role : String
deriving DecidableEq, Repr

/-- Abstract view of a presented JWT, as the golang-jwt parser classifies
it: well-formedness, signing algorithm family, signature validity against
the configured secret, expiry, and the decoded claim fields. -/
structure JWTTokenModel where
  wellFormed : Bool
  algHMAC : Bool
  sigValidForSecret : Bool
  expired : Bool
  sub : String
  username : String
  email : String
  role : String
deriving DecidableEq, Repr

/-- Models jwt.ParseWithClaims with the keyfunc of validateJWT: malformed
tokens fail to parse; the keyfunc rejects any non-HMAC signing method;
then the signature is checked against the secret and registered claims
(expiry) are validated.  Returns the parse error, if any. -/
def jwtParseOutcome (t : JWTTokenModel) : Option String :=
  if !t.wellFormed then some "token is malformed"
  else if !t.algHMAC then some "unexpected signing method"
  else if !t.sigValidForSecret then some "signature is invalid"
  else if t.expired then some "token is expired"
  else none

/-- Errors returned by validateJWT. -/
inductive JWTError where
  | invalidToken (msg : String)
  | notValid
  | missingSub
deriving DecidableEq, Repr

/-- validateJWT from server.go: parse error is terminal, then the
token.Valid flag, then the mandatory sub claim. -/
def validateJWT (t : JWTTokenModel) : Except JWTError LedgerForgeClaims :=
  match jwtParseOutcome t with
  | some e => .error (.invalidToken e)
  | none =>
      if !(jwtParseOutcome t).isNone then .error .notValid
      else if t.sub = "" then .error .missingSub
      else .ok ⟨t.sub, t.username, t.email, t.role⟩

/-- Whether an Except value is a success. -/
def exceptIsOk : Except JWTError LedgerForgeClaims → Bool
  | .ok _ => true
  | .error _ => false

/-! ## Webhook authorization stage (webhookHandler, lines 277-308) -/

/-- The auth decision taken at the top of webhookHandler. -/
inductive AuthDecision where
  | jwtUnauthorized
  | legacyUnauthorized
  | jwtOk (sessionKey : String)
  | legacyOk (sessionKey : String)
deriving DecidableEq, Repr

/-- HTTP status implied by an auth decision (200 meaning: proceed). -/
def authStatus : AuthDecision → Nat
  | .jwtUnauthorized => 401
  | .legacyUnauthorized => 401
  | .jwtOk _ => 200
  | .legacyOk _ => 200

/-- The auth dispatch of webhookHandler: JWT path when a secret is
configured and a non-pc_ token is presented, else the legacy path.  The
string-level JWT validation is the validate parameter (the composition of
parsing with validateJWT, external to this routing logic). -/
def webhookAuth (validate : String → Except JWTError LedgerForgeClaims)
    (s : Server) (r : Request) : AuthDecision :=
  let rawToken := extractRawToken r
  if !(s.jwtSecret == "") && !(rawToken == "") && !(strStarts rawToken "pc_") then
    match validate rawToken with
    | .error _ => .jwtUnauthorized
    | .ok claims => .jwtOk ("user:" ++ claims.sub)
  else
    if !(isAuthorized s r) then .legacyUnauthorized
    else .legacyOk ("api:" ++ strTake (extractTokenHash r) 8)

/-! ## Webhook body stage (webhookHandler, lines 357-368) -/

/-- Outcome of the message/attachment validation stage. -/
inductive BodyOutcome where
  | badRequest
  | dispatch (message : String)
deriving DecidableEq, Repr

/-- HTTP status implied by a body outcome (200 meaning: dispatched). -/
def bodyStatus : BodyOutcome → Nat
  | .badRequest => 400
  | .dispatch _ => 200

/-- The empty-message check and file-only placeholder fill of
webhookHandler, after the message and media paths have been read. -/
def processBody (message : String) (mediaPaths : List String) : BodyOutcome :=
  if strTrim message = "" && mediaPaths.length == 0 then .badRequest
  else .dispatch (if strTrim message = "" then "Process the attached receipt" else message)

/-! ## Session/State Manager (pkg/state/state.go) -/

/-- AuthEntry from state.go; time.Time is abstracted to a Nat stamp. -/
structure AuthEntry where
  jwtToken : String
  channel : String
  chatID : String
  updatedAt : Nat
deriving DecidableEq, Repr

/-- State from state.go. ActiveAuth (a Go map) is an association list
whose keys are kept duplicate-free by the map-assignment model. -/
structure PState where
  lastChannel : String
  lastChatID : String
  activeAuth : List (String × AuthEntry)
  timestamp : Nat
deriving DecidableEq, Repr

/-- The zero State value (&State\x7b\x7d). -/
def emptyPState : PState := ⟨"", "", [], 0⟩

/-- JSON documents, as far as the persisted state shape needs. -/
inductive Json where
  | str : String → Json
  | num : Nat → Json
  | obj : List (String × Json) → Json

/-- Encoding of an AuthEntry (model of Go encoding/json marshal). -/
def encodeAuthEntry (e : AuthEntry) : Json :=
  .obj [("jwt_token", .str e.jwtToken), ("channel", .str e.channel),
        ("chat_id", .str e.chatID), ("updated_at", .num e.updatedAt)]

/-- Encoding of the State envelope, with the omitempty behavior of the
Go struct tags (empty strings and an empty map are omitted). -/
def encodePState (s : PState) : Json :=
  .obj ((if s.lastChannel = "" then [] else [("last_channel", .str s.lastChannel)]) ++
        (if s.lastChatID = "" then [] else [("last_chat_id", .str s.lastChatID)]) ++
        (if s.activeAuth = [] then []
         else [("active_auth", .obj (s.activeAuth.map (fun p => (p.fst, encodeAuthEntry p.snd))))]) ++
        [("timestamp", .num s.timestamp)])

/-- Model of unmarshalling a string field: absent means the zero value,
a non-string value is a type error. -/
def getStrField (fields : List (String × Json)) (k : String) : Option String :=
  match fields.lookup k with
  | none => some ""
  | some (.str v) => some v
  | some _ => none

/-- Model of unmarshalling a numeric (time) field. -/
def getNatField (fields : List (String × Json)) (k : String) : Option Nat :=
  match fields.lookup k with
  | none => some 0
  | some (.num v) => some v
  | some _ => none

/-- Decoding of one AuthEntry. -/
def decodeAuthEntry (j : Json) : Option AuthEntry :=
  match j with
  | .obj fields =>
      match getStrField fields "jwt_token", getStrField fields "channel",
            getStrField fields "chat_id", getNatField fields "updated_at" with
      | some jt, some chn, some cid, some ua => some ⟨jt, chn, cid, ua⟩
      | _, _, _, _ => none
  | _ => none

/-- Decoding of the active_auth object entries, in order. -/
def decodeEntries : List (String × Json) → Option (List (String × AuthEntry))
  | [] => some []
  | (k, v) :: rest =>
      match decodeAuthEntry v, decodeEntries rest with
      | some e, some es => some ((k, e) :: es)
      | _, _ => none

/-- Decoding of the active_auth field: absent means the nil map. -/
def getAuthField (fields : List (String × Json)) : Option (List (String × AuthEntry)) :=
  match fields.lookup "active_auth" with
  | none => some []
  | some (.obj entries) => decodeEntries entries
  | some _ => none

/-- Decoding of the State envelope (model of Go json.Unmarshal into
&State\x7b\x7d). -/
def decodePState (j : Json) : Option PState :=
  match j with
  | .obj fields =>
      match getStrField fields "last_channel", getStrField fields "last_chat_id",
            getAuthField fields, getNatField fields "timestamp" with
      | some lc, some lid, some aa, some ts => some ⟨lc, lid, aa, ts⟩
      | _, _, _, _ => none
  | _ => none

/-- A file system, as a partial map from paths to JSON documents. -/
def Fs : Type := String → Option Json

/-- Write (or overwrite) a file. -/
def fsWrite (fs : Fs) (p : String) (v : Json) : Fs :=
  fun q => if q = p then some v else fs q

/-- Remove a file. -/
def fsRemove (fs : Fs) (p : String) : Fs :=
  fun q => if q = p then none else fs q

/-- The current-layout state file path of NewManager. -/
def stateFilePath (workspace : String) : String :=
  workspace ++ "/state/state.json"

/-- The legacy single-file path of NewManager. -/
def oldStatePath (workspace : String) : String :=
  workspace ++ "/state.json"

/-- Manager from state.go. -/
structure Manager where
  workspace : String
  stateFile : String
  state : PState
deriving DecidableEq, Repr

/-- saveAtomic from state.go: marshal, write the sibling .tmp file, then
rename it over the target (the success path of the temp-file + rename
discipline). -/
def saveAtomic (m : Manager) (fs : Fs) : Fs :=
  let tmpFile := m.stateFile ++ ".tmp"
  let data := encodePState m.state
  let fs1 := fsWrite fs tmpFile data
  fsWrite (fsRemove fs1 tmpFile) m.stateFile data

/-- NewManager from state.go: load from the new location when present,
else migrate a parseable legacy file (re-persisting it), else start
empty.  Unparseable data leaves the zero state, as the ignored error
paths of load and the migration branch do. -/
def NewManager (workspace : String) (fs : Fs) : Manager × Fs :=
  let sf := stateFilePath workspace
  let old := oldStatePath workspace
  match fs sf with
  | none =>
      match fs old with
      | some data =>
          match decodePState data with
          | some st =>
              let m : Manager := ⟨workspace, sf, st⟩
              (m, saveAtomic m fs)
          | none => (⟨workspace, sf, emptyPState⟩, fs)
      | none => (⟨workspace, sf, emptyPState⟩, fs)
  | some data =>
      match decodePState data with
      | some st => (⟨workspace, sf, st⟩, fs)
      | none => (⟨workspace, sf, emptyPState⟩, fs)

/-- Go map assignment m[k] = v on an association list: replace the
binding in place, or append a new one. -/
def setAuth (l : List (String × AuthEntry)) (k : String) (v : AuthEntry) :
    List (String × AuthEntry) :=
  match l with
  | [] => [(k, v)]
  | (k1, v1) :: rest => if k1 = k then (k, v) :: rest else (k1, v1) :: setAuth rest k v

/-- Number of bindings an association list holds for a key. -/
def countKey (k : String) (l : List (String × AuthEntry)) : Nat :=
  (l.filter (fun p => p.fst == k)).length

/-- SetBusinessAuth from state.go; now stands for time.Now(). -/
def SetBusinessAuth (m : Manager) (fs : Fs)
    (businessID jwtToken channel chatID : String) (now : Nat) : Manager × Fs :=
  let st := m.state
  let st1 := { st with
    activeAuth := setAuth st.activeAuth businessID ⟨jwtToken, channel, chatID, now⟩,
    timestamp := now }
  let m1 := { m with state := st1 }
  (m1, saveAtomic m1 fs)

/-! ## Helper lemmas -/

theorem decodeAuthEntry_encode (e : AuthEntry) :
    decodeAuthEntry (encodeAuthEntry e) = some e := rfl

theorem decodeEntries_encode (l : List (String × AuthEntry)) :
    decodeEntries (l.map (fun p => (p.fst, encodeAuthEntry p.snd))) = some l := by
  induction l with
  | nil => rfl
  | cons p rest ih =>
      simp only [List.map_cons, decodeEntries, decodeAuthEntry_encode, ih]

theorem decodePState_encode (s : PState) :
    decodePState (encodePState s) = some s := by
  obtain ⟨lc, lid, aa, ts⟩ := s
  by_cases h1 : lc = "" <;> by_cases h2 : lid = "" <;> by_cases h3 : aa = [] <;>
    simp [encodePState, decodePState, getStrField, getAuthField, getNatField,
          List.lookup, h1, h2, h3, decodeEntries_encode]

theorem fsWrite_self (fs : Fs) (p : String) (v : Json) :
    fsWrite fs p v p = some v := by
  simp [fsWrite]

theorem saveAtomic_read (m : Manager) (fs : Fs) :
    saveAtomic m fs m.stateFile = some (encodePState m.state) := by
  simp [saveAtomic, fsWrite_self]

theorem lookup_setAuth_self (l : List (String × AuthEntry)) (k : String) (v : AuthEntry) :
    (setAuth l k v).lookup k = some v := by
  induction l with
  | nil => simp [setAuth, List.lookup]
  | cons p rest ih =>
      obtain ⟨k1, v1⟩ := p
      by_cases h : k1 = k
      · simp [setAuth, h, List.lookup]
      · have hk : (k == k1) = false := by
          simp only [beq_eq_false_iff_ne, ne_eq]
          exact fun hh => h hh.symm
        simp [setAuth, h, List.lookup, hk, ih]

theorem countKey_setAuth_self (l : List (String × AuthEntry)) (k : String) (v : AuthEntry) :
    countKey k (setAuth l k v) = max (countKey k l) 1 := by
  induction l with
  | nil => simp [setAuth, countKey]
  | cons p rest ih =>
      obtain ⟨k1, v1⟩ := p
      by_cases h : k1 = k
      · simp [setAuth, h, countKey, List.filter]
      · simp only [setAuth, if_neg h, countKey, List.filter_cons] at ih ⊢
        simp only [beq_iff_eq, h, if_false]
        exact ih

theorem countKey_setAuth_ne (l : List (String × AuthEntry)) (k k1 : String)
    (v : AuthEntry) (h : k ≠ k1) :
    countKey k (setAuth l k1 v) = countKey k l := by
  induction l with
  | nil =>
      have hb : (k1 == k) = false := by
        simp only [beq_eq_false_iff_ne, ne_eq]
        exact Ne.symm h
      simp [setAuth, countKey, List.filter, hb]
  | cons p rest ih =>
      obtain ⟨ka, va⟩ := p
      by_cases hk : ka = k1
      · have hb : (k1 == k) = false := by
          simp only [beq_eq_false_iff_ne, ne_eq]
          exact Ne.symm h
        simp [setAuth, hk, countKey, List.filter_cons, hb]
      · simp only [setAuth, if_neg hk, countKey, List.filter_cons] at ih ⊢
        cases hb : (ka == k) <;> simp [hb, ih]

theorem mem_addToken (ts : List String) (h : String) : h ∈ addToken ts h := by
  by_cases hm : h ∈ ts <;> simp [addToken, hm]

theorem contains_addToken (ts : List String) (h : String) :
    (addToken ts h).contains h = true := by
  simp [mem_addToken ts h]

/-- A gateway at first run: no credentials, pairing optional, a current
unused pairing code, no JWT secret. -/
def srv0 : Server := ⟨false, [], "482193", false, ""⟩

/-- A gateway with a configured JWT secret and no credentials. -/
def srv0JWT : Server := ⟨false, [], "482193", false, "s3cret"⟩

/-! ## Claims -/

/-- Claim C1: once an exchange has succeeded for the current code the
used flag is set, and on any Server whose code is used, every exchange
attempt that submits a code (any non-empty header value) fails with
status 410 and leaves the state — in particular the credential set —
unchanged, so no second bearer token is ever minted or recorded. -/
theorem pairing_exchange_at_most_once (s s1 : Server) (c c1 t t1 : String)
    (hok : (pairExchange s c t).fst = .ok t)
    (hused : s1.pairingUsed = true) (hc1 : c1 ≠ "") :
    (pairExchange s c t).snd.pairingUsed = true ∧
    statusOf (pairExchange s1 c1 t1).fst = 410 ∧
    (pairExchange s1 c1 t1).snd = s1 := by
  refine ⟨?_, ?_, ?_⟩
  · by_cases h1 : c = ""
    · simp [pairExchange, h1] at hok
    · by_cases h2 : s.pairingUsed
      · simp [pairExchange, h1, h2] at hok
      · by_cases h3 : c = s.pairingCode
        · subst h3
          simp [pairExchange, h1, h2]
        · simp [pairExchange, h1, h2, h3] at hok
  · simp [pairExchange, hc1, hused, statusOf]
  · simp [pairExchange, hc1, hused]

theorem pairing_exchange_at_most_once_witness :
    (pairExchange srv0 "482193" "pc_t").fst = .ok "pc_t" ∧
    ((pairExchange srv0 "482193" "pc_t").snd.pairingUsed = true ∧
     statusOf (pairExchange (pairExchange srv0 "482193" "pc_t").snd "482193" "pc_u").fst = 410 ∧
     (pairExchange (pairExchange srv0 "482193" "pc_t").snd "482193" "pc_u").snd =
       (pairExchange srv0 "482193" "pc_t").snd) :=
  ⟨by decide,
   pairing_exchange_at_most_once srv0 (pairExchange srv0 "482193" "pc_t").snd
     "482193" "482193" "pc_t" "pc_u" (by decide) (by decide) (by decide)⟩

/-- Claim C4: submitting a wrong (non-empty) code against an unused
current code yields 403, does not set the used flag, and leaves the
whole Server — including the credential set — unchanged; a subsequent
exchange with the correct code still succeeds and records the new
token hash. -/
theorem pairing_mismatch_does_not_consume (s : Server) (c t t1 : String)
    (hused : s.pairingUsed = false) (hc : c ≠ "") (hne : c ≠ s.pairingCode)
    (hcode : s.pairingCode ≠ "") :
    (pairExchange s c t).fst = .mismatch ∧
    statusOf (pairExchange s c t).fst = 403 ∧
    (pairExchange s c t).snd = s ∧
    (pairExchange (pairExchange s c t).snd s.pairingCode t1).fst = .ok t1 ∧
    (pairExchange (pairExchange s c t).snd s.pairingCode t1).snd.pairedTokens.contains
      (hashToken t1) = true := by
  have hstep : pairExchange s c t = (.mismatch, s) := by
    simp [pairExchange, hc, hused, hne]
  refine ⟨by simp [hstep], by simp [hstep, statusOf], by simp [hstep], ?_, ?_⟩
  · rw [hstep]
    simp [pairExchange, hcode, hused]
  · rw [hstep]
    simp [pairExchange, hcode, hused, mem_addToken]

theorem pairing_mismatch_does_not_consume_witness :
    (srv0.pairingUsed = false ∧ "111111" ≠ "" ∧ "111111" ≠ srv0.pairingCode ∧
     srv0.pairingCode ≠ "") ∧
    ((pairExchange srv0 "111111" "pc_t").fst = .mismatch ∧
     statusOf (pairExchange srv0 "111111" "pc_t").fst = 403 ∧
     (pairExchange srv0 "111111" "pc_t").snd = srv0 ∧
     (pairExchange (pairExchange srv0 "111111" "pc_t").snd srv0.pairingCode "pc_u").fst = .ok "pc_u" ∧
     (pairExchange (pairExchange srv0 "111111" "pc_t").snd srv0.pairingCode "pc_u").snd.pairedTokens.contains
       (hashToken "pc_u") = true) :=
  ⟨⟨by decide, by decide, by decide, by decide⟩,
   pairing_mismatch_does_not_consume srv0 "111111" "pc_t" "pc_u"
     (by decide) (by decide) (by decide) (by decide)⟩

/-- Claim C9 counterexample: with the current code "123456" unused, an
exchange attempt with the wrong code "000000" fails (403), yet neither
the failure itself nor a subsequent ResetPairingCode call installs a
fresh code — the state still carries "123456", so the pairing code is
not regenerated whenever an exchange attempt fails. -/
theorem reset_after_mismatch_keeps_code :
    statusOf (pairExchange ⟨false, [], "123456", false, ""⟩ "000000" "pc_t").fst = 403 ∧
    (pairExchange ⟨false, [], "123456", false, ""⟩ "000000" "pc_t").snd =
      ⟨false, [], "123456", false, ""⟩ ∧
    ResetPairingCode ⟨false, [], "123456", false, ""⟩ "654321" =
      ⟨false, [], "123456", false, ""⟩ ∧
    (ResetPairingCode ⟨false, [], "123456", false, ""⟩ "654321").pairingCode ≠ "654321" := by
  decide

/-- Claim C9 amended: operator rotation (GenerateNewPairingCode) always
installs the fresh code and clears the used flag; ResetPairingCode
regenerates only when the used flag is set (an attempt failed because
the code was already consumed) and is a no-op otherwise; the exchange
handler itself never installs a fresh code. -/
theorem pairing_code_regeneration (s : Server) (fresh c t : String) :
    GenerateNewPairingCode s fresh = { s with pairingCode := fresh, pairingUsed := false } ∧
    ResetPairingCode s fresh =
      (if s.pairingUsed then { s with pairingCode := fresh, pairingUsed := false } else s) ∧
    (pairExchange s c t).snd.pairingCode = s.pairingCode := by
  refine ⟨rfl, ?_, ?_⟩
  · by_cases h : s.pairingUsed <;> simp [ResetPairingCode, h]
  · by_cases h1 : c = ""
    · simp [pairExchange, h1]
    · by_cases h2 : s.pairingUsed
      · simp [pairExchange, h1, h2]
      · by_cases h3 : c = s.pairingCode
        · subst h3
          simp [pairExchange, h1, h2]
        · simp [pairExchange, h1, h2, h3]

/-- Claim C2: with pairing not mandatory and an empty credential set,
isAuthorized accepts every request, and the webhook auth stage lets an
unauthenticated request (no Authorization header) through on the legacy
path; after one successful pairing exchange the identical request is
rejected with 401, and any Server holding at least one credential
rejects it, so the rejection is permanent while a credential exists. -/
theorem bootstrap_auth_evaporates
    (validate : String → Except JWTError LedgerForgeClaims)
    (s s1 : Server) (r r0 : Request) (t : String)
    (hreq : s.requirePairing = false) (hempty : s.pairedTokens = [])
    (h0 : r0.authHeader = "") (hcode : s.pairingCode ≠ "")
    (hunused : s.pairingUsed = false)
    (hs1 : s1.pairedTokens ≠ []) :
    isAuthorized s r = true ∧
    webhookAuth validate s r0 = .legacyOk ("api:" ++ strTake (hashToken "") 8) ∧
    (pairExchange s s.pairingCode t).fst = .ok t ∧
    authStatus (webhookAuth validate (pairExchange s s.pairingCode t).snd r0) = 401 ∧
    isAuthorized s1 r0 = false := by
  have hnb : strStarts "" "Bearer " = false := by decide
  have hauth : ∀ s2 : Server, isAuthorized s2 r0 =
      (!s2.requirePairing && s2.pairedTokens.length == 0) := by
    intro s2
    by_cases hb : (!s2.requirePairing && s2.pairedTokens.length == 0) = true
    · simp [isAuthorized, hb]
    · simp only [Bool.not_eq_true] at hb
      simp [isAuthorized, hb, h0, hnb]
  have hex : pairExchange s s.pairingCode t =
      (.ok t, { s with pairedTokens := addToken s.pairedTokens (hashToken t),
                       pairingUsed := true }) := by
    simp [pairExchange, hcode, hunused]
  refine ⟨by simp [isAuthorized, hreq, hempty], ?_, by simp [hex], ?_, ?_⟩
  · simp [webhookAuth, extractRawToken, h0, hnb, isAuthorized, hreq, hempty,
          extractTokenHash, bearerTrim]
  · rw [hex]
    simp [webhookAuth, extractRawToken, h0, hnb, hauth, hempty, addToken, authStatus]
  · rw [hauth s1]
    simp [List.length_eq_zero, hs1]

theorem bootstrap_auth_evaporates_witness :
    (srv0.requirePairing = false ∧ srv0.pairedTokens = [] ∧
     (Request.mk "").authHeader = "" ∧ srv0.pairingCode ≠ "" ∧
     srv0.pairingUsed = false ∧
     (pairExchange srv0 "482193" "pc_t").snd.pairedTokens ≠ []) ∧
    (isAuthorized srv0 ⟨"Bearer junk"⟩ = true ∧
     webhookAuth (fun _ => .error .notValid) srv0 ⟨""⟩ =
       .legacyOk ("api:" ++ strTake (hashToken "") 8) ∧
     (pairExchange srv0 srv0.pairingCode "pc_t").fst = .ok "pc_t" ∧
     authStatus (webhookAuth (fun _ => .error .notValid)
       (pairExchange srv0 srv0.pairingCode "pc_t").snd ⟨""⟩) = 401 ∧
     isAuthorized (pairExchange srv0 "482193" "pc_t").snd ⟨""⟩ = false) :=
  ⟨⟨by decide, by decide, by decide, by decide, by decide, by decide⟩,
   bootstrap_auth_evaporates (fun _ => .error .notValid) srv0
     (pairExchange srv0 "482193" "pc_t").snd ⟨"Bearer junk"⟩ ⟨""⟩ "pc_t"
     (by decide) (by decide) (by decide) (by decide) (by decide) (by decide)⟩

/-- Claim C3: when a JWT secret is configured and a non-empty bearer
token without the pc_ prefix is presented, webhookAuth runs the JWT
path: a validation failure yields the 401 JWT rejection, the outcome is
independent of the legacy credential set (no fallback to hash
membership), and for a pc_-prefixed token the outcome is independent of
the JWT validator (the token is never passed to it). -/
theorem jwt_path_no_fallback
    (validate validate1 : String → Except JWTError LedgerForgeClaims)
    (s : Server) (ts : List String) (r r1 : Request) (e : JWTError)
    (h1 : s.jwtSecret ≠ "") (h2 : extractRawToken r ≠ "")
    (hp : strStarts (extractRawToken r) "pc_" = false)
    (hv : validate (extractRawToken r) = .error e)
    (hp1 : strStarts (extractRawToken r1) "pc_" = true) :
    webhookAuth validate s r = .jwtUnauthorized ∧
    authStatus (webhookAuth validate s r) = 401 ∧
    webhookAuth validate s r = webhookAuth validate { s with pairedTokens := ts } r ∧
    webhookAuth validate s r1 = webhookAuth validate1 s r1 := by
  have hcond : (!(s.jwtSecret == "") && !(extractRawToken r == "") &&
      !(strStarts (extractRawToken r) "pc_")) = true := by
    simp [h1, h2, hp]
  have hmain : webhookAuth validate s r = .jwtUnauthorized := by
    simp [webhookAuth, hcond, hv]
  refine ⟨hmain, by simp [hmain, authStatus], ?_, ?_⟩
  · have hcond1 : webhookAuth validate { s with pairedTokens := ts } r = .jwtUnauthorized := by
      simp [webhookAuth, hcond, hv]
    rw [hmain, hcond1]
  · simp [webhookAuth, hp1]

theorem jwt_path_no_fallback_witness :
    ((srv0JWT.jwtSecret ≠ "") ∧ (extractRawToken ⟨"Bearer eyJhbGciOi"⟩ ≠ "") ∧
     (strStarts (extractRawToken ⟨"Bearer eyJhbGciOi"⟩) "pc_" = false) ∧
     ((fun _ => (.error (.invalidToken "token is malformed") :
        Except JWTError LedgerForgeClaims)) (extractRawToken ⟨"Bearer eyJhbGciOi"⟩) =
        .error (.invalidToken "token is malformed")) ∧
     (strStarts (extractRawToken ⟨"Bearer pc_abc"⟩) "pc_" = true)) ∧
    (webhookAuth (fun _ => .error (.invalidToken "token is malformed")) srv0JWT
       ⟨"Bearer eyJhbGciOi"⟩ = .jwtUnauthorized ∧
     authStatus (webhookAuth (fun _ => .error (.invalidToken "token is malformed")) srv0JWT
       ⟨"Bearer eyJhbGciOi"⟩) = 401 ∧
     webhookAuth (fun _ => .error (.invalidToken "token is malformed")) srv0JWT
       ⟨"Bearer eyJhbGciOi"⟩ =
       webhookAuth (fun _ => .error (.invalidToken "token is malformed"))
         { srv0JWT with pairedTokens := [hashToken "pc_abc"] } ⟨"Bearer eyJhbGciOi"⟩ ∧
     webhookAuth (fun _ => .error (.invalidToken "token is malformed")) srv0JWT
       ⟨"Bearer pc_abc"⟩ =
       webhookAuth (fun _ => .ok ⟨"alice", "", "", ""⟩) srv0JWT ⟨"Bearer pc_abc"⟩) :=
  ⟨⟨by decide, by decide, by decide, rfl, by decide⟩,
   jwt_path_no_fallback (fun _ => .error (.invalidToken "token is malformed"))
     (fun _ => .ok ⟨"alice", "", "", ""⟩) srv0JWT [hashToken "pc_abc"]
     ⟨"Bearer eyJhbGciOi"⟩ ⟨"Bearer pc_abc"⟩ (.invalidToken "token is malformed")
     (by decide) (by decide) (by decide) rfl (by decide)⟩

/-- Claim C5: validateJWT succeeds exactly when the token is well
formed, signed with an HMAC-family algorithm, carries a valid signature
for the secret, is not expired, and has a non-empty sub claim — so each
failure condition, including a missing subject on an otherwise valid
signature, is rejected — and on success it returns exactly the decoded
identity claims. -/
theorem validateJWT_classification (t : JWTTokenModel) :
    exceptIsOk (validateJWT t) =
      (t.wellFormed && t.algHMAC && t.sigValidForSecret && !t.expired && !(t.sub == "")) ∧
    (validateJWT t = .ok ⟨t.sub, t.username, t.email, t.role⟩ ∨
     exceptIsOk (validateJWT t) = false) := by
  obtain ⟨wf, alg, sig, ex, sub, un, em, ro⟩ := t
  cases wf <;> cases alg <;> cases sig <;> cases ex <;>
    by_cases hsub : sub = "" <;>
      simp [validateJWT, jwtParseOutcome, exceptIsOk, hsub]

/-- Claim C8: a message that is empty after trimming with no attached
files is rejected with 400, while the same empty message with at least
one attached file is dispatched, the message replaced by the canonical
placeholder. -/
theorem empty_message_requires_file (msg f : String) (fpaths : List String)
    (hmsg : strTrim msg = "") :
    processBody msg [] = .badRequest ∧
    bodyStatus (processBody msg []) = 400 ∧
    processBody msg (f :: fpaths) = .dispatch "Process the attached receipt" ∧
    bodyStatus (processBody msg (f :: fpaths)) = 200 := by
  refine ⟨?_, ?_, ?_, ?_⟩ <;> simp [processBody, bodyStatus, hmsg]

theorem empty_message_requires_file_witness :
    strTrim "  " = "" ∧
    (processBody "  " [] = .badRequest ∧
     bodyStatus (processBody "  " []) = 400 ∧
     processBody "  " ["media/receipt.jpg"] = .dispatch "Process the attached receipt" ∧
     bodyStatus (processBody "  " ["media/receipt.jpg"]) = 200) :=
  ⟨by decide, empty_message_requires_file "  " "media/receipt.jpg" [] (by decide)⟩

/-- Claim C10: whenever the bootstrap exception admits a request with no
Authorization header, the derived session key is "api:" followed by the
first 8 hex characters of the SHA-256 hash of the empty string — the
same fixed value "api:e3b0c442" for every such caller, on every such
Server. -/
theorem anonymous_session_key
    (validate validate1 : String → Except JWTError LedgerForgeClaims)
    (s s1 : Server) (r r1 : Request)
    (h1 : s.requirePairing = false) (h2 : s.pairedTokens = [])
    (h3 : s1.requirePairing = false) (h4 : s1.pairedTokens = [])
    (hr : r.authHeader = "") (hr1 : r1.authHeader = "") :
    webhookAuth validate s r = .legacyOk ("api:" ++ strTake (hashToken "") 8) ∧
    webhookAuth validate s r = webhookAuth validate1 s1 r1 ∧
    "api:" ++ strTake (hashToken "") 8 = "api:e3b0c442" := by
  have hnb : strStarts "" "Bearer " = false := by decide
  have key : ∀ (v : String → Except JWTError LedgerForgeClaims) (s2 : Server) (r2 : Request),
      s2.requirePairing = false → s2.pairedTokens = [] → r2.authHeader = "" →
      webhookAuth v s2 r2 = .legacyOk ("api:" ++ strTake (hashToken "") 8) := by
    intro v s2 r2 ha hb hc
    simp [webhookAuth, extractRawToken, hc, hnb, isAuthorized, ha, hb,
          extractTokenHash, bearerTrim]
  refine ⟨key validate s r h1 h2 hr, ?_, by decide⟩
  rw [key validate s r h1 h2 hr, key validate1 s1 r1 h3 h4 hr1]

theorem anonymous_session_key_witness :
    (srv0.requirePairing = false ∧ srv0.pairedTokens = [] ∧
     srv0JWT.requirePairing = false ∧ srv0JWT.pairedTokens = [] ∧
     (Request.mk "").authHeader = "") ∧
    (webhookAuth (fun _ => .error .notValid) srv0 ⟨""⟩ =
       .legacyOk ("api:" ++ strTake (hashToken "") 8) ∧
     webhookAuth (fun _ => .error .notValid) srv0 ⟨""⟩ =
       webhookAuth (fun _ => .ok ⟨"alice", "", "", ""⟩) srv0JWT ⟨""⟩ ∧
     "api:" ++ strTake (hashToken "") 8 = "api:e3b0c442") :=
  ⟨⟨by decide, by decide, by decide, by decide, by decide⟩,
   anonymous_session_key (fun _ => .error .notValid) (fun _ => .ok ⟨"alice", "", "", ""⟩)
     srv0 srv0JWT ⟨""⟩ ⟨""⟩ (by decide) (by decide) (by decide) (by decide) rfl rfl⟩

/-- Claim C6: saving any state snapshot through the atomic-save path and
constructing a fresh Manager over the same storage yields a snapshot
equal field-for-field in lastChannel, lastChatID, and every tenant's
AuthEntry. -/
theorem state_roundtrip (w : String) (s : PState) (fs : Fs) :
    (NewManager w (saveAtomic ⟨w, stateFilePath w, s⟩ fs)).fst.state.lastChannel =
      s.lastChannel ∧
    (NewManager w (saveAtomic ⟨w, stateFilePath w, s⟩ fs)).fst.state.lastChatID =
      s.lastChatID ∧
    ∀ tid, (NewManager w (saveAtomic ⟨w, stateFilePath w, s⟩ fs)).fst.state.activeAuth.lookup tid =
      s.activeAuth.lookup tid := by
  have key : (NewManager w (saveAtomic ⟨w, stateFilePath w, s⟩ fs)).fst.state = s := by
    have h1 : saveAtomic ⟨w, stateFilePath w, s⟩ fs (stateFilePath w) =
        some (encodePState s) := saveAtomic_read ⟨w, stateFilePath w, s⟩ fs
    simp [NewManager, h1, decodePState_encode]
  simp [key]

/-- Claim C7: given at most one entry per tenant, SetBusinessAuth keeps
that invariant, fully replaces the tenant's entry with the new values,
and called twice with identical arguments leaves exactly one entry for
the tenant, carrying the updatedAt stamp of the later call. -/
theorem setBusinessAuth_last_writer_wins (m : Manager) (fs fs1 : Fs)
    (bid jt chn cid k : String) (n1 n2 : Nat)
    (hk : countKey k m.state.activeAuth ≤ 1)
    (hbid : countKey bid m.state.activeAuth ≤ 1) :
    countKey k (SetBusinessAuth m fs bid jt chn cid n1).fst.state.activeAuth ≤ 1 ∧
    (SetBusinessAuth m fs bid jt chn cid n1).fst.state.activeAuth.lookup bid =
      some ⟨jt, chn, cid, n1⟩ ∧
    countKey bid (SetBusinessAuth (SetBusinessAuth m fs bid jt chn cid n1).fst
      fs1 bid jt chn cid n2).fst.state.activeAuth = 1 ∧
    (SetBusinessAuth (SetBusinessAuth m fs bid jt chn cid n1).fst
      fs1 bid jt chn cid n2).fst.state.activeAuth.lookup bid = some ⟨jt, chn, cid, n2⟩ := by
  refine ⟨?_, ?_, ?_, ?_⟩
  · by_cases hkb : k = bid
    · subst hkb
      simp only [SetBusinessAuth, countKey_setAuth_self]
      omega
    · simp only [SetBusinessAuth, countKey_setAuth_ne _ _ _ _ hkb]
      exact hk
  · simp only [SetBusinessAuth, lookup_setAuth_self]
  · simp only [SetBusinessAuth, countKey_setAuth_self]
    omega
  · simp only [SetBusinessAuth, lookup_setAuth_self]

/-- A manager over workspace w0 holding one tenant entry. -/
def mgr0 : Manager :=
  ⟨"w0", stateFilePath "w0", ⟨"telegram", "42", [("biz1", ⟨"tok0", "telegram", "42", 5⟩)], 5⟩⟩

/-- The empty file system. -/
def fs0 : Fs := fun _ => none

theorem setBusinessAuth_last_writer_wins_witness :
    (countKey "biz2" mgr0.state.activeAuth ≤ 1 ∧
     countKey "biz1" mgr0.state.activeAuth ≤ 1) ∧
    (countKey "biz2" (SetBusinessAuth mgr0 fs0 "biz1" "tok1" "api" "7" 8).fst.state.activeAuth ≤ 1 ∧
     (SetBusinessAuth mgr0 fs0 "biz1" "tok1" "api" "7" 8).fst.state.activeAuth.lookup "biz1" =
       some ⟨"tok1", "api", "7", 8⟩ ∧
     countKey "biz1" (SetBusinessAuth (SetBusinessAuth mgr0 fs0 "biz1" "tok1" "api" "7" 8).fst
       fs0 "biz1" "tok1" "api" "7" 9).fst.state.activeAuth = 1 ∧
     (SetBusinessAuth (SetBusinessAuth mgr0 fs0 "biz1" "tok1" "api" "7" 8).fst
       fs0 "biz1" "tok1" "api" "7" 9).fst.state.activeAuth.lookup "biz1" =
       some ⟨"tok1", "api", "7", 9⟩) :=
  ⟨⟨by decide, by decide⟩,
   setBusinessAuth_last_writer_wins mgr0 fs0 fs0 "biz1" "tok1" "api" "7" "biz2" 8 9
     (by decide) (by decide)⟩
